import Mathlib

/-
  Verification of the PlengBot download pipeline (src/bot.py).

  Modelling conventions:
  * Python strings are modelled as List Char; the helper chars turns a
    Lean string literal into that representation.
  * Network effects (yt_dlp extraction calls, HTTP requests) are modelled
    by explicit environment records describing what the external world
    answers; the functions under verification are then pure functions of
    those environments, translated line by line from src/bot.py.
  * Python exceptions are modelled as Except values.  Each distinct raise
    site of bot.py is one constructor of BotError, and errorMessage
    renders the exact message string built at that raise site.
-/

namespace PlengBot

/-- Convert a Lean string literal to the List Char representation used for
Python strings throughout this development. -/
def chars (s : String) : List Char := s.data

/-- Boolean test that needle starts hay, used to build substring search. -/
def startsWith : List Char → List Char → Bool
  | [], _ => true
  | _ :: _, [] => false
  | c :: cs, d :: ds => c == d && startsWith cs ds

/-- Boolean substring containment, modelling the Python expression
needle in hay on strings. -/
def hasSub : List Char → List Char → Bool
  | needle, [] => needle.isEmpty
  | needle, d :: hay => startsWith needle (d :: hay) || hasSub needle hay

/-- Lowercasing, modelling the Python method lower() on the ASCII texts
that appear in the error messages of bot.py. -/
def lowerStr (s : List Char) : List Char := s.map Char.toLower

/-- ASCII whitespace recognised by the Python method strip(); the model
covers the ASCII range, which is the alphabet of the URLs involved. -/
def isPySpace (c : Char) : Bool :=
  c == ' ' || c == '\t' || c == '\n' || c == '\r' || c == Char.ofNat 11 || c == Char.ofNat 12

/-- Model of the Python method strip(): drop leading and trailing
whitespace.  Used by handle_message (bot.py line 337). -/
def pyStrip (s : List Char) : List Char :=
  ((s.dropWhile isPySpace).reverse.dropWhile isPySpace).reverse

/- ===== Data model: yt_dlp metadata and the normalized descriptor ===== -/

/-- Format-related keys of a yt_dlp format dictionary, as read by
_format_audio_info (bot.py lines 184-197).  A missing key is none. -/
structure FormatInfo where
  url : Option (List Char)
  filesize : Option Nat
  ext : Option (List Char)
  vcodec : Option (List Char)
  acodec : Option (List Char)
  format_id : Option (List Char)
  deriving DecidableEq

/-- Keys of the top-level yt_dlp info dictionary used by the extraction
strategies.  asFormat holds the format-related keys of the same
dictionary, because _try_extract_with_cookies uses the info dictionary
itself as the selected format when requested_formats is absent
(bot.py line 153). -/
structure YtInfo where
  title : Option (List Char)
  uploader : Option (List Char)
  duration : Option Nat
  is_live : Option Bool
  webpage_url : Option (List Char)
  requested_formats : Option (List FormatInfo)
  asFormat : FormatInfo
  deriving DecidableEq

/-- The normalized audio descriptor produced by _format_audio_info
(bot.py lines 184-197); one field per key of the returned dictionary. -/
structure AudioInfo where
  url : Option (List Char)
  title : List Char
  uploader : List Char
  duration : Nat
  filesize : Option Nat
  ext : List Char
  has_video : Bool
  is_live : Bool
  webpage_url : List Char
  format_id : List Char
  deriving DecidableEq

/-- Translation of _format_audio_info (bot.py lines 184-197).  Each field
mirrors one dictionary entry; get with a default becomes getD, and get
without a default can yield none (in particular the url field). -/
def format_audio_info (info : YtInfo) (selected_format : FormatInfo) : AudioInfo :=
  { url := selected_format.url
    title := info.title.getD (chars "Audio")
    uploader := info.uploader.getD (chars "Unknown")
    duration := info.duration.getD 0
    filesize := selected_format.filesize
    ext := selected_format.ext.getD (chars "m4a")
    has_video := selected_format.vcodec != some (chars "none")
    is_live := info.is_live.getD false
    webpage_url := info.webpage_url.getD (chars "")
    format_id := selected_format.format_id.getD (chars "unknown") }

/- ===== Resolver: the three extraction strategies and their loop ===== -/

/-- Outcome of invoking one extraction strategy: the call can raise
(throws), return a falsy value such as None (returns none), or return a
descriptor (returns (some r)). -/
inductive StrategyOutcome where
  | throws
  | returns (r : Option AudioInfo)
  deriving DecidableEq

/-- Environment of one resolver run: what each of the three strategy
invocations of get_audio_info (bot.py lines 57-61) would produce for the
requested URL. -/
structure ExtractorEnv where
  verboseOutcome : StrategyOutcome
  cookiesOutcome : StrategyOutcome
  simpleOutcome : StrategyOutcome

/-- Error taxonomy of the pipeline: one constructor per raise site of
bot.py, carrying the data interpolated into the message at that site. -/
inductive BotError where
  | extractionFailed
  | videoTooLong
  | liveStream
  | noDirectUrl
  | notAccessible
  | tooLargeHeader (declared : Nat)
  | tooLargeStream (maxSize : Nat)
  | emptyPayload
  | timeout
  | networkError (m : List Char)
  deriving DecidableEq

/-- Translation of the strategy loop of get_audio_info (bot.py lines
63-75): a raised exception is logged and the loop continues, a falsy
result also continues, the first truthy result is returned, and after the
loop the resolver raises the extraction failure. -/
def tryStrategies : List StrategyOutcome → Except BotError AudioInfo
  | [] => .error .extractionFailed
  | .throws :: rest => tryStrategies rest
  | .returns none :: rest => tryStrategies rest
  | .returns (some r) :: _ => .ok r

/-- Translation of get_audio_info (bot.py lines 52-75): the three
strategies are tried in their fixed order verbose, cookies, simple. -/
def get_audio_info (e : ExtractorEnv) : Except BotError AudioInfo :=
  tryStrategies [e.verboseOutcome, e.cookiesOutcome, e.simpleOutcome]

/-- A strategy invocation counts as failed for the loop of get_audio_info
when it raised or returned a falsy value. -/
def strategyFailed (o : StrategyOutcome) : Prop :=
  o = .throws ∨ o = .returns none

/-- Translation of the result shaping of _try_extract_with_cookies
(bot.py lines 147-154) as a function of the extract_info reply: a falsy
info returns None; otherwise the selected format is the first entry of
requested_formats when that key is present (indexing an empty list raises,
which the resolver loop catches) and the info dictionary itself when the
key is absent. -/
def try_extract_with_cookies (resp : Option YtInfo) : StrategyOutcome :=
  match resp with
  | none => .returns none
  | some info =>
    match info.requested_formats with
    | some [] => .throws
    | some (f :: _) => .returns (some (format_audio_info info f))
    | none => .returns (some (format_audio_info info info.asFormat))

/- ===== Streaming downloader (download_audio, bot.py lines 208-252) ===== -/

/-- Failure of the requests.get call itself or of raise_for_status. -/
inductive NetFailure where
  | timeoutF
  | reqErrF (m : List Char)
  deriving DecidableEq

/-- One step of the streamed body: a chunk of the given size delivered by
iter_content, or a network exception raised during iteration. -/
inductive NetEvent where
  | chunkEv (size : Nat)
  | timeoutEv
  | reqErrEv (m : List Char)
  deriving DecidableEq

/-- Environment of one download_audio run: the reachability probe result
(validate_direct_url, bot.py lines 199-206, a HEAD request whose outcome
is external), the outcome of the GET call, the declared Content-Length,
and the stream of body events. -/
structure DownloadEnv where
  reachable : Bool
  getFailure : Option NetFailure
  contentLength : Option Nat
  events : List NetEvent
  deriving DecidableEq

/-- Exceptions that can leave the try block of download_audio: the three
plain raises of the body, and the two requests exception classes that the
except clauses translate. -/
inductive RaisedExc where
  | tooLargeHeaderExc (declared : Nat)
  | tooLargeStreamExc (maxSize : Nat)
  | emptyPayloadExc
  | reqTimeout
  | reqError (m : List Char)
  deriving DecidableEq

/-- Translation of the chunk loop of download_audio (bot.py lines
231-243).  The state is the running byte count (the buffer size); each
truthy chunk is written and counted, then the running total is compared
with the limit; an exhausted stream with zero bytes raises the empty-file
exception.  The returned pair is the bytes written to the buffer at
termination together with the control outcome. -/
def readLoop (maxSize : Nat) : Nat → List NetEvent → Nat × Except RaisedExc Nat
  | downloaded, [] =>
    (downloaded, if downloaded = 0 then .error .emptyPayloadExc else .ok downloaded)
  | downloaded, .timeoutEv :: _ => (downloaded, .error .reqTimeout)
  | downloaded, .reqErrEv m :: _ => (downloaded, .error (.reqError m))
  | downloaded, .chunkEv n :: rest =>
    if n = 0 then readLoop maxSize downloaded rest
    else if downloaded + n > maxSize then (downloaded + n, .error (.tooLargeStreamExc maxSize))
    else readLoop maxSize (downloaded + n) rest

/-- Translation of the try block of download_audio (bot.py lines
224-243): a failing GET raises a requests exception; otherwise a declared
Content-Length above the limit raises before any body byte is read, and
otherwise the chunk loop runs. -/
def download_body (env : DownloadEnv) (maxSize : Nat) : Nat × Except RaisedExc Nat :=
  match env.getFailure with
  | some .timeoutF => (0, .error .reqTimeout)
  | some (.reqErrF m) => (0, .error (.reqError m))
  | none =>
    match env.contentLength with
    | some cl =>
      if cl > maxSize then (0, .error (.tooLargeHeaderExc cl))
      else readLoop maxSize 0 env.events
    | none => readLoop maxSize 0 env.events

/-- Translation of download_audio (bot.py lines 208-252).  The URL is
validated first (raising outside the try block); then the try block runs
and the two except clauses translate only the requests exception classes,
while the plain raises of the body propagate unchanged.  The message of a
translated network error truncates the underlying text to 50 characters
(bot.py line 252). -/
def download_audio (env : DownloadEnv) (maxSize : Nat) : Except BotError Nat :=
  if env.reachable = false then .error .notAccessible
  else
    match (download_body env maxSize).2 with
    | .ok n => .ok n
    | .error (.tooLargeHeaderExc cl) => .error (.tooLargeHeader cl)
    | .error (.tooLargeStreamExc ms) => .error (.tooLargeStream ms)
    | .error .emptyPayloadExc => .error .emptyPayload
    | .error .reqTimeout => .error .timeout
    | .error (.reqError m) => .error (.networkError (m.take 50))

/-- Default size limit of download_audio: 50 MiB (bot.py line 208). -/
def max_size_default : Nat := 50 * 1024 * 1024

/-- Events of a list that are chunk deliveries only (no exception). -/
def isChunkOnly : List NetEvent → Bool
  | [] => true
  | .chunkEv _ :: rest => isChunkOnly rest
  | .timeoutEv :: _ => false
  | .reqErrEv _ :: _ => false

/-- Total bytes carried by the chunk events of a list. -/
def chunkSum : List NetEvent → Nat
  | [] => 0
  | .chunkEv n :: rest => n + chunkSum rest
  | .timeoutEv :: rest => chunkSum rest
  | .reqErrEv _ :: rest => chunkSum rest

/- ===== Orchestrator (fast_download, bot.py lines 254-287) ===== -/

/-- Translation of fast_download (bot.py lines 254-287): extract the
descriptor, then reject in order on duration above 1800, live stream, and
missing direct URL, then download with the default 50 MiB limit. -/
def fast_download (e : ExtractorEnv) (net : DownloadEnv) : Except BotError (Nat × AudioInfo) :=
  match get_audio_info e with
  | .error err => .error err
  | .ok info =>
    if info.duration > 1800 then .error .videoTooLong
    else if info.is_live then .error .liveStream
    else
      match info.url with
      | none => .error .noDirectUrl
      | some _ =>
        match download_audio net max_size_default with
        | .error err => .error err
        | .ok bytes => .ok (bytes, info)

/- ===== Dispatcher (handle_message, bot.py lines 334-358) ===== -/

/-- Externally visible actions of handle_message towards the chat
transport, in order of execution. -/
inductive BotAction where
  | sendUsageHint
  | deleteOriginal
  | scheduleDownload (url : List Char)
  deriving DecidableEq

/-- The URL shape markers of the filter (bot.py line 341). -/
def valid_domains : List (List Char) :=
  [chars "youtube.com/watch", chars "youtu.be/", chars "youtube.com/shorts/"]

/-- Translation of handle_message (bot.py lines 334-358): strip the
message text; when no marker is contained in it, reply with the usage
hint and stop; otherwise attempt to delete the original message and
schedule the download of the full stripped text. -/
def handle_message (text : List Char) : List BotAction :=
  let url := pyStrip text
  if valid_domains.any (fun d => hasSub d url) then
    [.deleteOriginal, .scheduleDownload url]
  else
    [.sendUsageHint]

/- ===== Markdown escaping (clean_text, bot.py lines 360-369) ===== -/

/-- The reserved markdown characters of clean_text (bot.py line 365);
the backtick and the two braces are written by code point. -/
def md_chars : List Char :=
  ['_', '*', '[', ']', '(', ')', '~', Char.ofNat 96, '>', '#', '+', '-', '=', '|',
   Char.ofNat 123, Char.ofNat 125, '.', '!']

/-- Translation of the Python call replace(old, new) for a single-char
pattern: every occurrence of old is replaced by new, in one pass. -/
def replaceChar : List Char → Char → List Char → List Char
  | [], _, _ => []
  | c :: rest, old, new => (if c = old then new else [c]) ++ replaceChar rest old new

/-- Translation of clean_text (bot.py lines 360-369): a falsy input
yields the empty string, otherwise each reserved character is replaced by
backslash plus itself, one sequential pass per reserved character. -/
def clean_text (text : List Char) : List Char :=
  if text.isEmpty then []
  else md_chars.foldl (fun result c => replaceChar result c ['\\', c]) text

/-- Single-pass escaping with respect to a character set: each character
of the set is emitted preceded by exactly one backslash, every other
character is emitted unchanged.  This is the specification shape against
which clean_text is compared. -/
def escBy (cs : List Char) : List Char → List Char
  | [] => []
  | c :: rest => (if c ∈ cs then ['\\', c] else [c]) ++ escBy cs rest

/- ===== Error rendering and dispatcher classification ===== -/

/-- Rendering of a size in MiB with one fractional digit, standing for
the Python float interpolation in the two size error messages; the digits
are never relied upon by any theorem. -/
def fmtSizeMB (n : Nat) : List Char :=
  (toString (n / 1048576)).data ++ '.' :: (toString (n * 10 / 1048576 % 10)).data

/-- The message string built at each raise site of bot.py (lines 75, 215,
229, 240, 243, 250, 252, 271, 274, 277). -/
def errorMessage : BotError → List Char
  | .extractionFailed => chars "Could not extract audio information"
  | .videoTooLong => chars "Video too long (max 30 minutes)"
  | .liveStream => chars "Live streams not supported"
  | .noDirectUrl => chars "No audio URL available"
  | .notAccessible => chars "Audio URL is not accessible"
  | .tooLargeHeader n => chars "File too large (" ++ fmtSizeMB n ++ chars "MB)"
  | .tooLargeStream ms => chars "File exceeds size limit (" ++ fmtSizeMB ms ++ chars "MB)"
  | .emptyPayload => chars "Downloaded empty file"
  | .timeout => chars "Download timeout - server too slow"
  | .networkError m => chars "Network error: " ++ m

/-- Translation of the error branch of download_task (bot.py lines
459-475): the user-facing text is chosen by case-insensitive substring
tests over the free-text message of the failure, with a final branch that
echoes the first 60 characters of the raw message. -/
def classify_error (error_msg : List Char) : List Char :=
  let lower := lowerStr error_msg
  chars "❌ " ++
    (if hasSub (chars "too long") lower then chars "Video too long (max 30 minutes)"
     else if hasSub (chars "too large") lower then chars "File too large (max 50MB)"
     else if hasSub (chars "private") lower || hasSub (chars "unavailable") lower then
       chars "Video is private or unavailable"
     else if hasSub (chars "age-restricted") lower then
       chars "Age-restricted content not supported"
     else if hasSub (chars "could not extract") lower then
       chars "Could not extract audio. Video may be restricted."
     else if hasSub (chars "timeout") lower then
       chars "Download timeout. Try a shorter video."
     else chars "Error: " ++ error_msg.take 60)

/-- The profile of substring tests that classify_error performs on a
message, in the order of the elif chain. -/
def matchProfile (m : List Char) : List Bool :=
  [hasSub (chars "too long") (lowerStr m),
   hasSub (chars "too large") (lowerStr m),
   hasSub (chars "private") (lowerStr m),
   hasSub (chars "unavailable") (lowerStr m),
   hasSub (chars "age-restricted") (lowerStr m),
   hasSub (chars "could not extract") (lowerStr m),
   hasSub (chars "timeout") (lowerStr m)]

/- ===== Upload path selection (download_task, bot.py lines 421-437) ===== -/

/-- The two upload calls the success path can make, with the arguments
built by download_task. -/
inductive UploadCall where
  | document (caption : List Char)
  | audio (title : List Char) (performer : List Char) (duration : Nat) (caption : List Char)
  deriving DecidableEq

/-- Translation of the upload selection of download_task (bot.py lines
419-437): above 20 MiB the buffer is sent as a document, otherwise as
audio with title (cleaned after truncation to 64), performer (cleaned
then truncated to 64), and duration capped at 600 for display. -/
def choose_upload (filesize : Nat) (info : AudioInfo) : UploadCall :=
  let safe_caption := chars "🎵 " ++ clean_text (info.title.take 100)
  if filesize > 20 * 1024 * 1024 then
    .document safe_caption
  else
    .audio (clean_text (info.title.take 64)) ((clean_text info.uploader).take 64)
      (min info.duration 600) safe_caption

/- ===== Concrete inputs used by witnesses and counterexamples ===== -/

/-- A descriptor with a usable direct URL. -/
def sampleInfo : AudioInfo :=
  { url := some (chars "https://cdn.example/audio.m4a")
    title := chars "Sample"
    uploader := chars "Someone"
    duration := 120
    filesize := some 1000
    ext := chars "m4a"
    has_video := false
    is_live := false
    webpage_url := chars "https://youtube.com/watch?v=sample"
    format_id := chars "140" }

/-- A yt_dlp reply whose only requested format has no url key. -/
def cexYtInfo : YtInfo :=
  { title := some (chars "Blocked")
    uploader := some (chars "Someone")
    duration := some 90
    is_live := some false
    webpage_url := some (chars "https://youtube.com/watch?v=blocked")
    requested_formats := some [{ url := none, filesize := none, ext := some (chars "m4a"),
                                 vcodec := some (chars "none"), acodec := some (chars "mp4a"),
                                 format_id := some (chars "140") }]
    asFormat := { url := none, filesize := none, ext := none, vcodec := none,
                  acodec := none, format_id := none } }

/-- The descriptor the cookies strategy builds from cexYtInfo: its url
field is none. -/
def cexDescriptor : AudioInfo :=
  format_audio_info cexYtInfo
    { url := none, filesize := none, ext := some (chars "m4a"),
      vcodec := some (chars "none"), acodec := some (chars "mp4a"),
      format_id := some (chars "140") }

/-- Resolver environment in which strategy 1 raises, strategy 2 returns
the descriptor without direct URL, and strategy 3 would return a
descriptor with a usable direct URL. -/
def cexEnv : ExtractorEnv :=
  { verboseOutcome := .throws
    cookiesOutcome := try_extract_with_cookies (some cexYtInfo)
    simpleOutcome := .returns (some sampleInfo) }

/-- Download environment whose GET raises a requests error mentioning an
unavailable video. -/
def netUnavailEnv : DownloadEnv :=
  { reachable := true
    getFailure := some (.reqErrF (chars "video unavailable"))
    contentLength := none
    events := [] }

/-- Download environment whose GET raises a requests error mentioning a
connection reset. -/
def netResetEnv : DownloadEnv :=
  { reachable := true
    getFailure := some (.reqErrF (chars "connection reset"))
    contentLength := none
    events := [] }

/-- A live descriptor without direct URL whose duration just exceeds the
policy maximum. -/
def longInfo : AudioInfo :=
  { sampleInfo with duration := 1801, is_live := true, url := none }

/-- A descriptor whose duration sits exactly on the policy maximum. -/
def maxDurationInfo : AudioInfo :=
  { sampleInfo with duration := 1800 }

/- ===== Lemmas ===== -/

/-- The strategy loop raises the extraction failure exactly when every
listed strategy raised or returned a falsy value. -/
theorem tryStrategies_error_iff (l : List StrategyOutcome) :
    tryStrategies l = .error .extractionFailed ↔ ∀ o ∈ l, strategyFailed o := by
  induction l with
  | nil => simp [tryStrategies]
  | cons s rest ih =>
    cases s with
    | throws => simp [tryStrategies, strategyFailed, ih]
    | returns r =>
      cases r with
      | none => simp [tryStrategies, strategyFailed, ih]
      | some a => simp [tryStrategies, strategyFailed]

/-- Running the chunk loop over a prefix of chunk deliveries whose total
stays within the limit just advances the byte count. -/
theorem readLoop_chunks_le (maxSize : Nat) (pre : List NetEvent) :
    ∀ (d : Nat) (rest : List NetEvent), isChunkOnly pre = true →
      d + chunkSum pre ≤ maxSize →
      readLoop maxSize d (pre ++ rest) = readLoop maxSize (d + chunkSum pre) rest := by
  induction pre with
  | nil => intro d rest _ _; simp [chunkSum]
  | cons ev pre ih =>
    intro d rest hco hle
    cases ev with
    | chunkEv n =>
      rw [List.cons_append, readLoop]
      simp only [isChunkOnly] at hco
      simp only [chunkSum] at hle
      by_cases hn : n = 0
      · subst hn
        rw [if_pos rfl, ih d rest hco (by omega)]
        simp [chunkSum]
      · rw [if_neg hn, if_neg (by omega : ¬ d + n > maxSize),
          ih (d + n) rest hco (by omega)]
        simp only [chunkSum]
        congr 1
        omega
    | timeoutEv => simp [isChunkOnly] at hco
    | reqErrEv m => simp [isChunkOnly] at hco

/-- A stream of chunk deliveries carrying zero bytes in total leaves the
loop with zero bytes downloaded and the empty-file exception. -/
theorem readLoop_zero (maxSize : Nat) (evs : List NetEvent) :
    isChunkOnly evs = true → chunkSum evs = 0 →
    readLoop maxSize 0 evs = (0, .error .emptyPayloadExc) := by
  induction evs with
  | nil => intro _ _; simp [readLoop]
  | cons ev evs ih =>
    intro hco hsum
    cases ev with
    | chunkEv n =>
      simp only [isChunkOnly] at hco
      simp only [chunkSum] at hsum
      have hn : n = 0 := by omega
      subst hn
      rw [readLoop, if_pos rfl]
      exact ih hco (by omega)
    | timeoutEv => simp [isChunkOnly] at hco
    | reqErrEv m => simp [isChunkOnly] at hco

/-- The downloader never produces the orchestrator rejection kinds: its
failures come only from its own raise sites and except clauses. -/
theorem download_audio_not_videoTooLong (env : DownloadEnv) (maxSize : Nat) :
    download_audio env maxSize ≠ .error .videoTooLong := by
  rw [download_audio]
  by_cases hr : env.reachable = false
  · simp [hr]
  · rw [if_neg hr]
    rcases hb : (download_body env maxSize).2 with exc | n
    · cases exc <;> simp
    · simp

/- ===== Claim theorems ===== -/

/-- C1: get_audio_info tries the three strategies in the fixed order
verbose, cookies, simple; the first strategy producing a truthy result is
returned with the remaining strategy outcomes irrelevant; a strategy that
throws (or returns a falsy result) leads to the next strategy being
attempted; and the resolver raises the extraction failure exactly when
all three strategies failed. -/
theorem resolver_strategy_order (e e' : ExtractorEnv) :
    (∀ r, e.verboseOutcome = .returns (some r) → get_audio_info e = .ok r) ∧
    (∀ r, e.verboseOutcome = .returns (some r) → e'.verboseOutcome = .returns (some r) →
      get_audio_info e = get_audio_info e') ∧
    (strategyFailed e.verboseOutcome →
      ∀ r, e.cookiesOutcome = .returns (some r) → get_audio_info e = .ok r) ∧
    (strategyFailed e.verboseOutcome → strategyFailed e.cookiesOutcome →
      ∀ r, e.simpleOutcome = .returns (some r) → get_audio_info e = .ok r) ∧
    (get_audio_info e = .error .extractionFailed ↔
      (strategyFailed e.verboseOutcome ∧ strategyFailed e.cookiesOutcome ∧
        strategyFailed e.simpleOutcome)) := by
  refine ⟨?_, ?_, ?_, ?_, ?_⟩
  · intro r h
    simp [get_audio_info, h, tryStrategies]
  · intro r h h'
    simp [get_audio_info, h, h', tryStrategies]
  · intro hf r h
    rcases hf with hf | hf <;> simp [get_audio_info, hf, h, tryStrategies]
  · intro hf1 hf2 r h
    rcases hf1 with hf1 | hf1 <;> rcases hf2 with hf2 | hf2 <;>
      simp [get_audio_info, hf1, hf2, h, tryStrategies]
  · rw [get_audio_info, tryStrategies_error_iff]
    simp

/-- Witness for C1 at concrete environments: a succeeding first strategy
and a run where all three strategies fail. -/
theorem resolver_strategy_order_witness :
    get_audio_info ⟨.returns (some sampleInfo), .throws, .throws⟩ = .ok sampleInfo ∧
    get_audio_info ⟨.throws, .returns none, .throws⟩ = .error .extractionFailed := by
  constructor
  · exact (resolver_strategy_order ⟨.returns (some sampleInfo), .throws, .throws⟩
      ⟨.returns (some sampleInfo), .throws, .throws⟩).1 sampleInfo rfl
  · exact (resolver_strategy_order ⟨.throws, .returns none, .throws⟩
      ⟨.throws, .returns none, .throws⟩).2.2.2.2.mpr
      ⟨Or.inl rfl, Or.inr rfl, Or.inl rfl⟩

/-- C2 counterexample: the claim states that a strategy returning a
descriptor whose url field is none falls through to the next strategy.
In the code the loop of get_audio_info tests only truthiness, and the
descriptor built by _format_audio_info is a non-empty dictionary even
when its url entry is None, so the resolver returns that descriptor: in
cexEnv, strategy 2 (the cookies strategy, run on a reply whose only
requested format has no url key) returns the url-less descriptor and the
resolver yields it even though strategy 3 would have produced a
descriptor with a usable direct URL. -/
theorem resolver_urlless_descriptor_counterexample :
    try_extract_with_cookies (some cexYtInfo) = .returns (some cexDescriptor) ∧
    cexDescriptor.url = none ∧
    cexEnv.simpleOutcome = .returns (some sampleInfo) ∧
    sampleInfo.url = some (chars "https://cdn.example/audio.m4a") ∧
    get_audio_info cexEnv = .ok cexDescriptor ∧
    cexDescriptor ≠ sampleInfo := by
  refine ⟨rfl, rfl, rfl, rfl, rfl, by decide⟩

/-- C2 (amended): a strategy that returns a descriptor is treated as a
success by the resolver even when the normalized descriptor has no
usable direct URL; the resolver returns it without consulting the
remaining strategies, and the missing direct URL is rejected only later
by the orchestrator with the no-direct-URL failure (after its duration
and live checks).  Only a strategy that throws or returns a falsy result
falls through. -/
theorem resolver_urlless_descriptor_returned (e : ExtractorEnv) (net : DownloadEnv)
    (d : AudioInfo) :
    e.verboseOutcome = .returns (some d) → d.url = none →
    get_audio_info e = .ok d ∧
    (d.duration ≤ 1800 → d.is_live = false →
      fast_download e net = .error .noDirectUrl) := by
  intro h hu
  have hok : get_audio_info e = .ok d := by
    simp [get_audio_info, h, tryStrategies]
  refine ⟨hok, ?_⟩
  intro hd hl
  simp only [fast_download, hok]
  rw [if_neg (by omega : ¬ d.duration > 1800)]
  simp [hl, hu]

/-- Witness for C2 amended theorem at a concrete environment whose first
strategy returns the url-less descriptor. -/
theorem resolver_urlless_descriptor_returned_witness :
    get_audio_info ⟨.returns (some cexDescriptor), .throws, .throws⟩ = .ok cexDescriptor ∧
    fast_download ⟨.returns (some cexDescriptor), .throws, .throws⟩ netResetEnv
      = .error .noDirectUrl := by
  have h := resolver_urlless_descriptor_returned
    ⟨.returns (some cexDescriptor), .throws, .throws⟩ netResetEnv cexDescriptor rfl rfl
  exact ⟨h.1, h.2 (by decide) rfl⟩

/-- C3: with a responsive server, a declared Content-Length above the
limit fails with the size failure of the header check before any body
byte is read (the result does not depend on the body events at all);
otherwise the running total is compared with the limit after every
delivered chunk, and the download aborts with the streaming size failure
as soon as the total exceeds the limit — whatever the rest of the stream
would have delivered and whether Content-Length was absent or understated
— with the buffer holding at most 8192 bytes past the limit when chunks
respect the iter_content chunk size. -/
theorem downloader_size_enforcement (maxSize : Nat) :
    (∀ (cl : Nat) (evs : List NetEvent), maxSize < cl →
      download_audio (DownloadEnv.mk true none (some cl) evs) maxSize
        = .error (.tooLargeHeader cl)) ∧
    (∀ (co : Option Nat) (pre : List NetEvent) (n : Nat) (rest : List NetEvent),
      (∀ cl, co = some cl → cl ≤ maxSize) →
      isChunkOnly pre = true → chunkSum pre ≤ maxSize → maxSize < chunkSum pre + n →
      download_audio (DownloadEnv.mk true none co (pre ++ NetEvent.chunkEv n :: rest)) maxSize
          = .error (.tooLargeStream maxSize) ∧
        (readLoop maxSize 0 (pre ++ NetEvent.chunkEv n :: rest)).1 = chunkSum pre + n ∧
        (n ≤ 8192 →
          (readLoop maxSize 0 (pre ++ NetEvent.chunkEv n :: rest)).1 ≤ maxSize + 8192)) := by
  constructor
  · intro cl evs hcl
    rw [download_audio]
    rw [if_neg (by simp)]
    have hb : (download_body (DownloadEnv.mk true none (some cl) evs) maxSize).2
        = .error (.tooLargeHeaderExc cl) := by
      rw [download_body]
      simp only
      rw [if_pos (by omega : cl > maxSize)]
    rw [hb]
  · intro co pre n rest hco hchunk hpre hover
    have hloop : readLoop maxSize 0 (pre ++ NetEvent.chunkEv n :: rest)
        = (chunkSum pre + n, .error (.tooLargeStreamExc maxSize)) := by
      rw [readLoop_chunks_le maxSize pre 0 (NetEvent.chunkEv n :: rest) hchunk
        (by omega), readLoop]
      simp only [Nat.zero_add]
      rw [if_neg (by omega : ¬ n = 0), if_pos (by omega : chunkSum pre + n > maxSize)]
    have hbody : (download_body (DownloadEnv.mk true none co
        (pre ++ NetEvent.chunkEv n :: rest)) maxSize).2
        = .error (.tooLargeStreamExc maxSize) := by
      rw [download_body]
      cases co with
      | none => simp [hloop]
      | some cl =>
        have : cl ≤ maxSize := hco cl rfl
        simp only
        rw [if_neg (by omega : ¬ cl > maxSize)]
        simp [hloop]
    refine ⟨?_, ?_, ?_⟩
    · rw [download_audio, if_neg (by simp), hbody]
    · rw [hloop]
    · intro h8
      rw [hloop]
      simp only
      omega

/-- Witness for C3: a declared length of 11 over a 10-byte limit fails on
the header; chunks of 6 and 6 over a 10-byte limit abort at 12 bytes,
within one chunk of the limit. -/
theorem downloader_size_enforcement_witness :
    download_audio (DownloadEnv.mk true none (some 11) [NetEvent.chunkEv 3]) 10
        = .error (.tooLargeHeader 11) ∧
    download_audio (DownloadEnv.mk true none none
        [NetEvent.chunkEv 6, NetEvent.chunkEv 6]) 10
        = .error (.tooLargeStream 10) ∧
    (readLoop 10 0 [NetEvent.chunkEv 6, NetEvent.chunkEv 6]).1 ≤ 10 + 8192 := by
  have h1 := (downloader_size_enforcement 10).1 11 [NetEvent.chunkEv 3] (by omega)
  have h2 := (downloader_size_enforcement 10).2 none [NetEvent.chunkEv 6] 6 []
    (by intro cl h; cases h) (by decide) (by decide) (by decide)
  exact ⟨h1, h2.1, h2.2.2 (by omega)⟩

/-- C7: a transfer that completes with zero bytes downloaded fails with
the empty-payload raise, which is a plain exception distinct from the
network and timeout kinds and is not caught or reclassified by the two
except clauses of the downloader (they translate only the requests
exception classes). -/
theorem empty_download_payload (maxSize : Nat) (co : Option Nat) (evs : List NetEvent) :
    (∀ cl, co = some cl → cl ≤ maxSize) →
    isChunkOnly evs = true → chunkSum evs = 0 →
    download_audio (DownloadEnv.mk true none co evs) maxSize = .error .emptyPayload ∧
    (∀ m, BotError.emptyPayload ≠ BotError.networkError m) ∧
    BotError.emptyPayload ≠ BotError.timeout := by
  intro hco hchunk hsum
  have hloop := readLoop_zero maxSize evs hchunk hsum
  refine ⟨?_, by intro m; simp, by simp⟩
  have hbody : (download_body (DownloadEnv.mk true none co evs) maxSize).2
      = .error .emptyPayloadExc := by
    rw [download_body]
    cases co with
    | none => simp [hloop]
    | some cl =>
      have : cl ≤ maxSize := hco cl rfl
      simp only
      rw [if_neg (by omega : ¬ cl > maxSize)]
      simp [hloop]
  rw [download_audio, if_neg (by simp), hbody]

/-- Witness for C7: a server that declares zero length and delivers one
empty chunk yields the empty-payload failure. -/
theorem empty_download_payload_witness :
    download_audio (DownloadEnv.mk true none (some 0) [NetEvent.chunkEv 0])
      max_size_default = .error .emptyPayload :=
  (empty_download_payload max_size_default (some 0) [NetEvent.chunkEv 0]
    (by intro cl h; cases h; omega) (by decide) (by decide)).1

/-- C4: the orchestrator rejects a resolved descriptor with duration
strictly above 1800 with the too-long failure and no other outcome — in
particular duration 1801 is rejected and duration 1800 is never rejected
as too long, so the maximum is inclusive.  The equivalence holds for
every live flag, direct URL and network behaviour, which shows the
duration check is decided before the live, direct-URL, reachability and
download steps. -/
theorem orchestrator_duration_gate (e : ExtractorEnv) (net : DownloadEnv)
    (info : AudioInfo) :
    get_audio_info e = .ok info →
    ((fast_download e net = .error .videoTooLong ↔ 1800 < info.duration) ∧
     (info.duration = 1801 → fast_download e net = .error .videoTooLong) ∧
     (info.duration = 1800 → fast_download e net ≠ .error .videoTooLong)) := by
  intro h
  have hpos : 1800 < info.duration → fast_download e net = .error .videoTooLong := by
    intro hd
    simp only [fast_download, h]
    rw [if_pos (by omega : info.duration > 1800)]
  have hneg : ¬ 1800 < info.duration → fast_download e net ≠ .error .videoTooLong := by
    intro hd
    simp only [fast_download, h]
    rw [if_neg (by omega : ¬ info.duration > 1800)]
    by_cases hl : info.is_live
    · simp [hl]
    · rw [if_neg (by simp [hl])]
      cases hu : info.url with
      | none => simp
      | some u =>
        cases hd : download_audio net max_size_default with
        | error err =>
          simp only
          intro hc
          have : err = BotError.videoTooLong := by
            exact (Except.error.injEq _ _).mp hc
          rw [this] at hd
          exact download_audio_not_videoTooLong net max_size_default hd
        | ok bytes => simp
  refine ⟨⟨?_, hpos⟩, ?_, ?_⟩
  · intro hc
    by_contra hd
    exact hneg hd hc
  · intro hd; exact hpos (by omega)
  · intro hd; exact hneg (by omega)

/-- Witness for C4: a descriptor of duration 1801 (even live and without
direct URL) is rejected as too long; one of duration 1800 is not. -/
theorem orchestrator_duration_gate_witness :
    fast_download ⟨.returns (some longInfo), .throws, .throws⟩ netResetEnv
        = .error .videoTooLong ∧
    fast_download ⟨.returns (some maxDurationInfo), .throws, .throws⟩ netResetEnv
        ≠ .error .videoTooLong := by
  constructor
  · exact (orchestrator_duration_gate ⟨.returns (some longInfo), .throws, .throws⟩
      netResetEnv longInfo rfl).2.1 rfl
  · exact (orchestrator_duration_gate ⟨.returns (some maxDurationInfo), .throws, .throws⟩
      netResetEnv maxDurationInfo rfl).2.2 rfl

/-- C9: on the success path a buffer strictly larger than 20 MiB is sent
as a document upload and a buffer of at most 20 MiB is sent as an audio
upload carrying the title, performer and duration metadata (the duration
shown capped at 600); the boundary is inclusive on the audio side. -/
theorem upload_path_selection (info : AudioInfo) (filesize : Nat) :
    (20 * 1024 * 1024 < filesize →
      choose_upload filesize info
        = .document (chars "🎵 " ++ clean_text (info.title.take 100))) ∧
    (filesize ≤ 20 * 1024 * 1024 →
      choose_upload filesize info
        = .audio (clean_text (info.title.take 64)) ((clean_text info.uploader).take 64)
            (min info.duration 600) (chars "🎵 " ++ clean_text (info.title.take 100))) := by
  constructor
  · intro h
    simp only [choose_upload]
    rw [if_pos (by omega : filesize > 20 * 1024 * 1024)]
  · intro h
    simp only [choose_upload]
    rw [if_neg (by omega : ¬ filesize > 20 * 1024 * 1024)]

/-- Witness for C9 at the boundary: 20 MiB plus one byte selects the
document upload, exactly 20 MiB selects the audio upload. -/
theorem upload_path_selection_witness :
    choose_upload 20971521 sampleInfo
      = .document (chars "🎵 " ++ clean_text (sampleInfo.title.take 100)) ∧
    choose_upload 20971520 sampleInfo
      = .audio (clean_text (sampleInfo.title.take 64))
          ((clean_text sampleInfo.uploader).take 64)
          (min sampleInfo.duration 600)
          (chars "🎵 " ++ clean_text (sampleInfo.title.take 100)) :=
  ⟨(upload_path_selection sampleInfo 20971521).1 (by omega),
   (upload_path_selection sampleInfo 20971520).2 (by omega)⟩

/-- The condition of the dispatcher filter unfolded to the three URL
shape markers. -/
theorem valid_domains_any_iff (s : List Char) :
    (valid_domains.any (fun d => hasSub d s) = true) ↔
      (hasSub (chars "youtube.com/watch") s = true ∨
       hasSub (chars "youtu.be/") s = true ∨
       hasSub (chars "youtube.com/shorts/") s = true) := by
  simp [valid_domains, List.any_cons, List.any_nil, Bool.or_eq_true]

/-- C5: a non-command message whose stripped text contains one of the
three recognized URL shape markers is accepted — the original message is
deleted (best effort) and one download task is scheduled; any other
string receives exactly one usage-hint reply, with no download task
scheduled and without deleting the original message. -/
theorem dispatcher_url_filter (text : List Char) :
    ((hasSub (chars "youtube.com/watch") (pyStrip text) = true ∨
      hasSub (chars "youtu.be/") (pyStrip text) = true ∨
      hasSub (chars "youtube.com/shorts/") (pyStrip text) = true) →
        handle_message text = [.deleteOriginal, .scheduleDownload (pyStrip text)]) ∧
    (¬ (hasSub (chars "youtube.com/watch") (pyStrip text) = true ∨
        hasSub (chars "youtu.be/") (pyStrip text) = true ∨
        hasSub (chars "youtube.com/shorts/") (pyStrip text) = true) →
        handle_message text = [.sendUsageHint] ∧
        (∀ u, BotAction.scheduleDownload u ∉ handle_message text) ∧
        BotAction.deleteOriginal ∉ handle_message text) := by
  constructor
  · intro h
    simp only [handle_message]
    rw [if_pos ((valid_domains_any_iff (pyStrip text)).mpr h)]
  · intro h
    have hm : handle_message text = [.sendUsageHint] := by
      simp only [handle_message]
      rw [if_neg (fun hc => h ((valid_domains_any_iff (pyStrip text)).mp hc))]
    refine ⟨hm, ?_, ?_⟩
    · intro u
      rw [hm]
      simp
    · rw [hm]
      simp

/-- Witness for C5: a message with a short-link marker is accepted and
scheduled; a plain greeting receives the usage hint only. -/
theorem dispatcher_url_filter_witness :
    handle_message (chars " https://youtu.be/dQw4w9WgXcQ ")
      = [.deleteOriginal, .scheduleDownload (pyStrip (chars " https://youtu.be/dQw4w9WgXcQ "))] ∧
    handle_message (chars "hello there") = [.sendUsageHint] := by
  constructor
  · exact (dispatcher_url_filter (chars " https://youtu.be/dQw4w9WgXcQ ")).1
      (Or.inr (Or.inl (by decide)))
  · exact ((dispatcher_url_filter (chars "hello there")).2 (by decide)).1

/-- C10 (implicit): the dispatcher filter is pure substring containment
on the stripped message text, and an accepted message forwards the entire
stripped text — not an extracted URL — as the source URL of the scheduled
download: a download for url u is scheduled exactly when some marker is
contained anywhere in the stripped text and u is that whole stripped
text. -/
theorem dispatcher_forwards_full_text (text u : List Char) :
    BotAction.scheduleDownload u ∈ handle_message text ↔
      ((hasSub (chars "youtube.com/watch") (pyStrip text) = true ∨
        hasSub (chars "youtu.be/") (pyStrip text) = true ∨
        hasSub (chars "youtube.com/shorts/") (pyStrip text) = true) ∧
       u = pyStrip text) := by
  simp only [handle_message]
  by_cases hc : valid_domains.any (fun d => hasSub d (pyStrip text)) = true
  · rw [if_pos hc]
    rw [valid_domains_any_iff] at hc
    simp [hc]
  · rw [if_neg hc]
    constructor
    · intro h
      simp at h
    · rintro ⟨hd, _⟩
      exact absurd ((valid_domains_any_iff (pyStrip text)).mpr hd) hc

/-- Witness for C10: a message whose marker is embedded in surrounding
prose is accepted and its whole stripped text is forwarded as the URL. -/
theorem dispatcher_forwards_full_text_witness :
    BotAction.scheduleDownload (pyStrip (chars "  see youtu.be/x now  "))
      ∈ handle_message (chars "  see youtu.be/x now  ") :=
  (dispatcher_forwards_full_text (chars "  see youtu.be/x now  ")
    (pyStrip (chars "  see youtu.be/x now  "))).mpr
    ⟨Or.inr (Or.inl (by decide)), rfl⟩

/-- Single-character replacement distributes over append. -/
theorem replaceChar_append (a b : List Char) (old : Char) (new : List Char) :
    replaceChar (a ++ b) old new = replaceChar a old new ++ replaceChar b old new := by
  induction a with
  | nil => simp [replaceChar]
  | cons c rest ih => simp [replaceChar, ih]

/-- Single-pass escaping distributes over append. -/
theorem escBy_append (cs a b : List Char) :
    escBy cs (a ++ b) = escBy cs a ++ escBy cs b := by
  induction a with
  | nil => simp [escBy]
  | cons c rest ih => simp [escBy, ih]

/-- Escaping with respect to the empty set is the identity. -/
theorem escBy_nilset (s : List Char) : escBy [] s = s := by
  induction s with
  | nil => rfl
  | cons c rest ih => simp [escBy, ih]

/-- Replacing a character not yet treated and then escaping the remaining
set equals escaping the enlarged set, provided the replacement pieces (a
backslash and the character itself) are outside the remaining set. -/
theorem escBy_replaceChar (cs : List Char) (c : Char) (hc : c ∉ cs) (hb : '\\' ∉ cs) :
    ∀ s, escBy cs (replaceChar s c ['\\', c]) = escBy (c :: cs) s := by
  intro s
  induction s with
  | nil => rfl
  | cons d rest ih =>
    by_cases hdc : d = c
    · subst hdc
      rw [replaceChar, if_pos rfl, escBy_append, ih]
      have h1 : escBy cs ['\\', d] = ['\\', d] := by
        simp [escBy, hb, hc]
      rw [h1]
      have h2 : escBy (d :: cs) (d :: rest) = ['\\', d] ++ escBy (d :: cs) rest := by
        simp [escBy]
      rw [h2]
    · rw [replaceChar, if_neg hdc, escBy_append, ih]
      have h1 : escBy cs [d] = (if d ∈ cs then ['\\', d] else [d]) := by
        simp [escBy]
      have h2 : escBy (c :: cs) (d :: rest)
          = (if d ∈ cs then ['\\', d] else [d]) ++ escBy (c :: cs) rest := by
        simp only [escBy]
        congr 1
        simp [List.mem_cons, hdc]
      rw [h1, h2]

/-- The sequential replacement passes of clean_text compute single-pass
escaping, for a duplicate-free character set not containing the
backslash. -/
theorem foldl_replace_eq_escBy :
    ∀ (cs : List Char), cs.Nodup → '\\' ∉ cs →
      ∀ s, List.foldl (fun result c => replaceChar result c ['\\', c]) s cs = escBy cs s := by
  intro cs
  induction cs with
  | nil =>
    intro _ _ s
    rw [List.foldl_nil, escBy_nilset]
  | cons c cs ih =>
    intro hnd hb s
    rw [List.foldl_cons]
    rw [ih (List.Nodup.of_cons hnd) (fun h => hb (List.mem_cons_of_mem c h))]
    exact escBy_replaceChar cs c (by simp at hnd; exact hnd.1)
      (fun h => hb (List.mem_cons_of_mem c h)) s

/-- clean_text equals single-pass escaping of the reserved characters. -/
theorem clean_text_eq_escBy (s : List Char) : clean_text s = escBy md_chars s := by
  rw [clean_text]
  by_cases h : s.isEmpty
  · rw [if_pos h]
    rw [List.isEmpty_iff] at h
    subst h
    rfl
  · rw [if_neg h]
    exact foldl_replace_eq_escBy md_chars (by decide) (by decide) s

/-- Escaping leaves a text without reserved characters unchanged. -/
theorem escBy_id (cs s : List Char) (h : ∀ c ∈ s, c ∉ cs) : escBy cs s = s := by
  induction s with
  | nil => rfl
  | cons c rest ih =>
    rw [escBy, if_neg (h c (List.mem_cons_self c rest))]
    rw [ih (fun d hd => h d (List.mem_cons_of_mem c hd))]
    rfl

/-- C8: clean_text returns plain text containing no reserved markdown
character unchanged; on the input A_B*C it produces A backslash
underscore B backslash asterisk C; and in general its output is the
character-by-character escape of the input in which every occurrence of
a reserved character is emitted preceded by exactly the one inserted
backslash and every other character is emitted unchanged. -/
theorem clean_text_escaping (s : List Char) :
    ((∀ c ∈ s, c ∉ md_chars) → clean_text s = s) ∧
    clean_text (chars "A_B*C") = ['A', '\\', '_', 'B', '\\', '*', 'C'] ∧
    clean_text s = escBy md_chars s := by
  refine ⟨?_, by decide, clean_text_eq_escBy s⟩
  intro h
  rw [clean_text_eq_escBy s]
  exact escBy_id md_chars s h

/-- Witness for C8: a plain text round-trips unchanged. -/
theorem clean_text_escaping_witness :
    clean_text (chars "hello world") = chars "hello world" :=
  (clean_text_escaping (chars "hello world")).1 (by decide)

/-- C6 counterexample: the claim states the user-facing text is a
function of the machine-distinguishable failure kind.  In the code it is
chosen by substring tests over the free text of the exception: here two
failures of the same terminal kind (both network errors raised by the
same except clause of the downloader, bot.py line 252) receive different
user-facing texts — one happens to contain the word unavailable and is
presented as a private or unavailable video, the other falls to the
generic echo of its message. -/
theorem error_classification_counterexample :
    download_audio netUnavailEnv max_size_default
        = .error (.networkError (chars "video unavailable")) ∧
    download_audio netResetEnv max_size_default
        = .error (.networkError (chars "connection reset")) ∧
    classify_error (errorMessage (.networkError (chars "video unavailable")))
        = chars "❌ Video is private or unavailable" ∧
    classify_error (errorMessage (.networkError (chars "connection reset")))
        = chars "❌ Error: Network error: connection reset" ∧
    classify_error (errorMessage (.networkError (chars "video unavailable")))
        ≠ classify_error (errorMessage (.networkError (chars "connection reset"))) := by
  refine ⟨rfl, rfl, by decide, by decide, by decide⟩

/-- C6 (amended): the user-facing short error message is chosen by
case-insensitive substring matching over the free-text message of the
failure, not by its machine kind: whenever some recognized fragment (too
long, too large, private, unavailable, age-restricted, could not
extract, timeout) matches, the output is fully determined by the profile
of matches, and when none matches the output echoes the first 60
characters of the raw message; failures of the same terminal kind can
therefore receive different texts. -/
theorem error_classification_by_text (m1 m2 : List Char) :
    (matchProfile m1 = matchProfile m2 → matchProfile m1 ≠ List.replicate 7 false →
      classify_error m1 = classify_error m2) ∧
    (matchProfile m1 = List.replicate 7 false →
      classify_error m1 = chars "❌ " ++ (chars "Error: " ++ m1.take 60)) := by
  constructor
  · intro hp hne
    simp only [matchProfile, List.cons.injEq, and_true] at hp
    obtain ⟨h1, h2, h3, h4, h5, h6, h7⟩ := hp
    simp only [classify_error]
    rw [h1, h2, h3, h4, h5, h6, h7]
    cases c1 : hasSub (chars "too long") (lowerStr m2) with
    | true => simp [c1]
    | false =>
      cases c2 : hasSub (chars "too large") (lowerStr m2) with
      | true => simp [c1, c2]
      | false =>
        cases c3 : hasSub (chars "private") (lowerStr m2) with
        | true => simp [c1, c2, c3]
        | false =>
          cases c4 : hasSub (chars "unavailable") (lowerStr m2) with
          | true => simp [c1, c2, c3, c4]
          | false =>
            cases c5 : hasSub (chars "age-restricted") (lowerStr m2) with
            | true => simp [c1, c2, c3, c4, c5]
            | false =>
              cases c6 : hasSub (chars "could not extract") (lowerStr m2) with
              | true => simp [c1, c2, c3, c4, c5, c6]
              | false =>
                cases c7 : hasSub (chars "timeout") (lowerStr m2) with
                | true => simp [c1, c2, c3, c4, c5, c6, c7]
                | false =>
                  exact absurd (by simp [matchProfile, h1, h2, h3, h4, h5, h6, h7,
                    c1, c2, c3, c4, c5, c6, c7, List.replicate]) hne
  · intro hp
    simp only [matchProfile, List.replicate, List.cons.injEq, and_true] at hp
    obtain ⟨h1, h2, h3, h4, h5, h6, h7⟩ := hp
    simp only [classify_error]
    simp [h1, h2, h3, h4, h5, h6, h7]

/-- Witness for C6 amended theorem: two distinct timeout texts with the
same match profile classify identically, and an unmatched text is echoed
in the generic branch. -/
theorem error_classification_by_text_witness :
    classify_error (chars "Download timeout - server too slow")
        = classify_error (chars "read timeout") ∧
    classify_error (chars "boom")
        = chars "❌ " ++ (chars "Error: " ++ (chars "boom").take 60) :=
  ⟨(error_classification_by_text (chars "Download timeout - server too slow")
      (chars "read timeout")).1 (by decide) (by decide),
   (error_classification_by_text (chars "boom") (chars "boom")).2 (by decide)⟩

end PlengBot
